import Mathlib

/-!
Verification of the song-catalog server (src/src/main.rs) against its
natural-language specification.

The embedding below translates the Rust handlers and the background flush
scheduler into pure Lean functions:

* the kv bucket (integer key to JSON-encoded Song) is modelled as an
  association list of (key, Song) pairs together with two fault-injection
  sets: keys whose reads fail (get returns Err) and keys whose writes fail
  (set returns Err, which the handlers unwrap, i.e. panic);
* panics (Rust unwrap on an Err) are modelled by Option: a result of none
  means the handler or background task panicked;
* the u32 play_count field is a Nat kept below 2 ^ 32, and the increment in
  play_song is the u32 addition, i.e. addition modulo 2 ^ 32 (release-mode
  wrapping semantics);
* Rust String::to_lowercase is modelled character-wise with Char.toLower
  (the claims under test do not depend on multi-character Unicode case
  mappings, and the source and the specification lower-case both sides of
  every comparison with the same function);
* the shared dirty flag (Arc<Mutex<bool>>) is a Bool; the critical section
  of the flush scheduler, lines 58-65 of main.rs, is the function
  takeIfDirty, which returns the pair (flush decision, new flag value).
-/

/-- The Song record of main.rs lines 14-25. id is usize, play_count is u32;
both are modelled as Nat (play_count values of interest stay below 2 ^ 32
and the increment wraps modulo 2 ^ 32). -/
structure Song where
  id : Nat
  title : String
  artist : String
  genre : String
  play_count : Nat
deriving DecidableEq, Repr

/-- The server state visible to the handlers: the kv bucket contents as an
association list (unique keys under the set operation below), plus the
fault-injection sets for the storage backend and the shared dirty flag. -/
structure AppState where
  entries : List (Nat × Song)
  readFails : List Nat
  writeFails : List Nat
  dirty : Bool
deriving DecidableEq, Repr

/-- The response of the play handler: either the 404 branch with the error
message that the handler serialises as the JSON body (SongNotFound, main.rs
lines 27-30), or the 200 branch carrying the updated record. -/
inductive PlayResp where
  | errResp (status : Nat) (msg : String)
  | okResp (status : Nat) (song : Song)
deriving DecidableEq, Repr

/-- Character-wise lower-casing, modelling Rust str::to_lowercase. -/
def lowerStr (s : String) : List Char :=
  s.toList.map Char.toLower

/-- Does the second list start with the first? (List-level helper for the
substring test below.) -/
def strStartsWith : List Char → List Char → Bool
  | [], _ => true
  | _ :: _, [] => false
  | a :: as, b :: bs => a == b && strStartsWith as bs

/-- Does the haystack contain the needle as a contiguous sublist?
Models Rust str::contains. -/
def strContainsAux (needle : List Char) : List Char → Bool
  | [] => needle.isEmpty
  | c :: t => strStartsWith needle (c :: t) || strContainsAux needle t

/-- The matching primitive of search_song (main.rs lines 129-155) and of the
specification: field lower-cased contains value lower-cased. -/
def strContainsLower (hay needle : String) : Bool :=
  strContainsAux (lowerStr needle) (lowerStr hay)

/-- Point lookup in the association list holding the bucket contents. -/
def lookupEntry (entries : List (Nat × Song)) (k : Nat) : Option Song :=
  (entries.find? (fun p => p.1 == k)).map (fun p => p.2)

/-- Insert-or-overwrite in the bucket contents, modelling kv set. The
iteration order of the backend is abstracted; the key set and the value at
each key are what the claims depend on. -/
def setEntry (entries : List (Nat × Song)) (k : Nat) (v : Song) : List (Nat × Song) :=
  (k, v) :: entries.filter (fun p => p.1 != k)

/-- db.len() of main.rs line 99: the number of records in the bucket. -/
def dbLen (st : AppState) : Nat :=
  st.entries.length

/-- db.get, main.rs line 182: Err for a key in the read-fault set, otherwise
Ok of the optional record. -/
def dbGet (st : AppState) (k : Nat) : Except Unit (Option Song) :=
  if st.readFails.contains k then Except.error ()
  else Except.ok (lookupEntry st.entries k)

/-- db.set followed by unwrap (main.rs lines 102 and 192): none models the
panic when the backend write fails. -/
def dbSet (st : AppState) (k : Nat) (v : Song) : Option AppState :=
  if st.writeFails.contains k then none
  else some { st with entries := setEntry st.entries k v }

/-- Setting the shared dirty flag, as every mutating handler does. -/
def markDirty (_dirty : Bool) : Bool :=
  true

/-- The critical section of the flush scheduler, main.rs lines 58-65: under
the lock, read the flag, and clear it when it was set. Returns the pair
(whether to flush, the flag value after the critical section). -/
def takeIfDirty (dirty : Bool) : Bool × Bool :=
  if dirty then (true, false) else (false, dirty)

/-- One iteration of the flush scheduler loop, main.rs lines 57-70. The
flushOk argument is the outcome flush_async would report. The code calls
unwrap on that outcome, so a failed flush panics the background task:
result none. Otherwise the loop continues with the returned flag value. -/
def flushCycle (dirty : Bool) (flushOk : Bool) : Option Bool :=
  let r := takeIfDirty dirty
  if r.1 then
    if flushOk then some r.2 else none
  else
    some r.2

/-- add_song, main.rs lines 96-108: compute id as db.len() + 1, build the
stored record from the payload with that id (all other fields, play_count
included, are taken from the payload), write it, mark dirty, return it.
none models the panic of the unwrap on a failed set. -/
def add_song (st : AppState) (payload : Song) : Option (Song × AppState) :=
  let id := dbLen st + 1
  let song := { payload with id := id }
  match dbSet st id song with
  | none => none
  | some st2 => some (song, { st2 with dirty := true })

/-- The per-record filter loop of search_song, main.rs lines 127-158: walk
the query parameters; a recognized key (title, artist, genre) rejects the
record when the lower-cased field does not contain the lower-cased value;
any other key is skipped. -/
def songMatches (song : Song) : List (String × String) → Bool
  | [] => true
  | (k, v) :: rest =>
    if k == "title" then
      strContainsLower song.title v && songMatches song rest
    else if k == "artist" then
      strContainsLower song.artist v && songMatches song rest
    else if k == "genre" then
      strContainsLower song.genre v && songMatches song rest
    else
      songMatches song rest

/-- search_song, main.rs lines 110-165: iterate the bucket and keep the
records passing every filter. The songs argument is the sequence of decoded
records in bucket iteration order (the source skips undecodable items; all
modelled entries are well-formed records). -/
def search_song (songs : List Song) (params : List (String × String)) : List Song :=
  songs.filter (fun s => songMatches s params)

/-- Written from the specification, for comparison with the source: a record
matches a filter (field, value) iff the field named title, artist or genre,
lower-cased, contains the value lower-cased as a substring; any other key is
ignored, that is, matches vacuously. -/
def specFilterMatches (song : Song) (f : String × String) : Bool :=
  if f.1 == "title" then strContainsLower song.title f.2
  else if f.1 == "artist" then strContainsLower song.artist f.2
  else if f.1 == "genre" then strContainsLower song.genre f.2
  else true

/-- Rust str::parse into usize, main.rs line 178: an optional leading plus
sign, then one or more decimal digits, value below 2 ^ 64 (64-bit usize);
anything else is a parse error. -/
def parseUsize (s : String) : Option Nat :=
  let chars := s.toList
  let digits := match chars with
    | '+' :: rest => rest
    | cs => cs
  if digits.isEmpty then none
  else if digits.all Char.isDigit then
    let n := digits.foldl (fun acc c => acc * 10 + (c.toNat - 48)) 0
    if n < 18446744073709551616 then some n else none
  else none

/-- play_song, main.rs lines 167-197. A missing id parameter returns the 404
body; a present id is parsed with unwrap, so a malformed id panics (none); a
read error or an absent record returns the 404 body with the state
unchanged; otherwise play_count is incremented with u32 wrapping, the record
is written back under the same id (unwrap: none on a write fault), the dirty
flag is set and the 200 response carries the updated record. -/
def play_song (st : AppState) (idParam : Option String) : Option (PlayResp × AppState) :=
  match idParam with
  | none => some (PlayResp.errResp 404 "Song not found", st)
  | some s =>
    match parseUsize s with
    | none => none
    | some id =>
      match dbGet st id with
      | Except.error _ => some (PlayResp.errResp 404 "Song not found", st)
      | Except.ok none => some (PlayResp.errResp 404 "Song not found", st)
      | Except.ok (some song) =>
        let song2 := { song with play_count := (song.play_count + 1) % 4294967296 }
        match dbSet st id song2 with
        | none => none
        | some st2 => some (PlayResp.okResp 200 song2, { st2 with dirty := true })

/-- Program counter of one increment request task, for the interleaving
model of concurrent play_song calls on one id: the task is about to read the
stored count (db.get), or holds the value it read and is about to write back
that value plus one (db.set), or is finished. -/
inductive IncTask where
  | toRead
  | toWrite (v : Nat)
  | done
deriving DecidableEq, Repr

/-- One atomic step of an increment task against the shared stored count of
the fixed id: the read captures the current count; the write stores the
captured count plus one (u32 wrapping), exactly the read-modify-write of
play_song lines 182-192, with no lock held between the two steps. -/
def incStep (shared : Nat) (t : IncTask) : Nat × IncTask :=
  match t with
  | IncTask.toRead => (shared, IncTask.toWrite shared)
  | IncTask.toWrite v => ((v + 1) % 4294967296, IncTask.done)
  | IncTask.done => (shared, IncTask.done)

/-- Run a schedule (a list of task indices) over the task pool, threading
the shared stored count; an index out of range is a no-op. Returns the final
stored count. -/
def runSched (shared : Nat) (tasks : List IncTask) : List Nat → Nat
  | [] => shared
  | i :: rest =>
    match tasks.get? i with
    | none => runSched shared tasks rest
    | some t =>
      let p := incStep shared t
      runSched p.1 (tasks.set i p.2) rest

/-- Reading back the key just written yields the value just written. -/
theorem lookup_set_self (entries : List (Nat × Song)) (k : Nat) (v : Song) :
    lookupEntry (setEntry entries k v) k = some v := by
  simp [lookupEntry, setEntry, List.find?]

/-- The per-record filter loop of the source equals the conjunction, over
the supplied filters, of the matching rule written from the specification. -/
theorem songMatches_eq_all (song : Song) (params : List (String × String)) :
    songMatches song params = params.all (fun f => specFilterMatches song f) := by
  induction params with
  | nil => rfl
  | cons f rest ih =>
    rcases f with ⟨k, v⟩
    simp only [songMatches, specFilterMatches, List.all_cons, ih]
    split_ifs <;> simp

/-- C1: the test-and-clear of the flush scheduler. When the dirty flag is
set, takeIfDirty reports true and leaves the flag false, and a second call
with no intervening markDirty reports false. -/
theorem takeIfDirty_test_and_clear (d : Bool) (h : d = true) :
    (takeIfDirty d).1 = true ∧ (takeIfDirty d).2 = false ∧
      (takeIfDirty (takeIfDirty d).2).1 = false := by
  subst h
  decide

/-- Witness for C1 at the concrete flag value true. -/
theorem takeIfDirty_test_and_clear_witness :
    (takeIfDirty true).1 = true ∧ (takeIfDirty true).2 = false ∧
      (takeIfDirty (takeIfDirty true).2).1 = false :=
  takeIfDirty_test_and_clear true rfl

/-- C2: evaluation of the flush cycle at the failing input. With the dirty
flag set and a failing flush, the critical section has already cleared the
flag when the flush runs, and the unwrap on the flush error panics the
background task (result none): the loop does not continue and the dirty
state is lost, contrary to the claim. -/
theorem flushCycle_failure_drops_dirty :
    flushCycle true false = none ∧ (takeIfDirty true).2 = false := by
  decide

/-- C8: evaluation of the play handler at a malformed id. The handler calls
unwrap on the parse result, so a non-integer id panics the request task
(result none): no 400 response is produced, contrary to the claim. -/
theorem play_song_malformed_id_panics :
    play_song { entries := [], readFails := [], writeFails := [], dirty := false }
      (some "abc") = none := by
  decide

/-- C9: evaluation of the read-modify-write at a racy schedule. Two
increment tasks against an initial stored count of 0: the interleaving that
lets both tasks read before either writes ends with a stored count of 1 (a
lost update), while the serialized schedule ends with 2 as the claim
demands. -/
theorem concurrent_increments_lose_update :
    runSched 0 [IncTask.toRead, IncTask.toRead] [0, 1, 0, 1] = 1 ∧
      runSched 0 [IncTask.toRead, IncTask.toRead] [0, 0, 1, 1] = 2 := by
  decide

/-- C3: whenever the backend write succeeds (as the claim presupposes: on a
write fault the handler panics and creates nothing), add_song returns the
payload with its id overridden to the store cardinality before the insert
plus 1, and the record is persisted in the resulting state under that id. -/
theorem add_song_assigns_dense_id (st : AppState) (payload : Song)
    (hw : st.writeFails.contains (dbLen st + 1) = false) :
    ∃ st2, add_song st payload = some ({ payload with id := dbLen st + 1 }, st2) ∧
      lookupEntry st2.entries (dbLen st + 1) = some { payload with id := dbLen st + 1 } := by
  refine ⟨{ entries := setEntry st.entries (dbLen st + 1) { payload with id := dbLen st + 1 },
            readFails := st.readFails, writeFails := st.writeFails, dirty := true }, ?_, ?_⟩
  · have hw2 : ¬ dbLen st + 1 ∈ st.writeFails := by simpa using hw
    simp [add_song, dbSet, hw2]
  · exact lookup_set_self st.entries (dbLen st + 1) { payload with id := dbLen st + 1 }

/-- Witness for C3: inserting into the empty store a payload whose
client-supplied id is 42 yields the record under id 1. -/
theorem add_song_assigns_dense_id_witness :
    ∃ st2,
      add_song { entries := [], readFails := [], writeFails := [], dirty := false }
          { id := 42, title := "Hey Jude", artist := "The Beatles", genre := "Rock",
            play_count := 0 } =
        some ({ id := 1, title := "Hey Jude", artist := "The Beatles", genre := "Rock",
                play_count := 0 }, st2) ∧
      lookupEntry st2.entries 1 =
        some { id := 1, title := "Hey Jude", artist := "The Beatles", genre := "Rock",
               play_count := 0 } :=
  add_song_assigns_dense_id
    { entries := [], readFails := [], writeFails := [], dirty := false }
    { id := 42, title := "Hey Jude", artist := "The Beatles", genre := "Rock",
      play_count := 0 }
    (by decide)

/-- C4 counterexample: a create whose payload carries play_count 5 stores
and returns play_count 5, not 0, so the claim as stated is false. -/
theorem add_song_play_count_not_reset :
    add_song { entries := [], readFails := [], writeFails := [], dirty := false }
        { id := 0, title := "t", artist := "a", genre := "g", play_count := 5 } =
      some ({ id := 1, title := "t", artist := "a", genre := "g", play_count := 5 },
            { entries := [(1, { id := 1, title := "t", artist := "a", genre := "g",
                                play_count := 5 })],
              readFails := [], writeFails := [], dirty := true }) ∧
    ({ id := 1, title := "t", artist := "a", genre := "g", play_count := 5 } : Song).play_count
      ≠ 0 := by
  decide

/-- C4 amended: the created record's play_count equals the play_count of
the decoded payload (which the serde default makes 0 exactly when the
client omitted the field); it is not reset by the handler. The stored and
the returned record agree. -/
theorem add_song_play_count_from_payload (st : AppState) (payload : Song)
    (hw : st.writeFails.contains (dbLen st + 1) = false) :
    ∃ st2 song, add_song st payload = some (song, st2) ∧
      song.play_count = payload.play_count ∧
      lookupEntry st2.entries (dbLen st + 1) = some song := by
  refine ⟨{ entries := setEntry st.entries (dbLen st + 1) { payload with id := dbLen st + 1 },
            readFails := st.readFails, writeFails := st.writeFails, dirty := true },
          { payload with id := dbLen st + 1 }, ?_, rfl, ?_⟩
  · have hw2 : ¬ dbLen st + 1 ∈ st.writeFails := by simpa using hw
    simp [add_song, dbSet, hw2]
  · exact lookup_set_self st.entries (dbLen st + 1) { payload with id := dbLen st + 1 }

/-- Witness for the amended C4 at a concrete payload carrying play_count 7
over the empty store. -/
theorem add_song_play_count_from_payload_witness :
    ∃ st2 song,
      add_song { entries := [], readFails := [], writeFails := [], dirty := false }
          { id := 0, title := "t", artist := "a", genre := "g", play_count := 7 } =
        some (song, st2) ∧
      song.play_count =
        ({ id := 0, title := "t", artist := "a", genre := "g", play_count := 7 } : Song).play_count ∧
      lookupEntry st2.entries 1 = some song :=
  add_song_play_count_from_payload
    { entries := [], readFails := [], writeFails := [], dirty := false }
    { id := 0, title := "t", artist := "a", genre := "g", play_count := 7 }
    (by decide)

/-- C6: search returns exactly the records matching every supplied filter
under the specification's matching rule (a recognized field lower-cased
must contain the value lower-cased; unrecognized keys match vacuously, so
they are ignored and are not an error), and with no filters every record is
returned. -/
theorem search_song_matches_spec (songs : List Song) (params : List (String × String)) :
    search_song songs params = songs.filter (fun s => params.all (fun f => specFilterMatches s f)) ∧
    (∀ s, s ∈ search_song songs params ↔
      s ∈ songs ∧ params.all (fun f => specFilterMatches s f) = true) ∧
    search_song songs [] = songs := by
  refine ⟨?_, ?_, ?_⟩
  · unfold search_song
    congr 1
    funext s
    exact songMatches_eq_all s params
  · intro s
    rw [search_song, List.mem_filter, songMatches_eq_all]
  · simp [search_song, songMatches]

/-- C5 amended: on an existing id (readable, writable, as the claim
presupposes a successful operation) whose play_count plus 1 stays below
2 ^ 32, play_song increments play_count by exactly 1, writes the updated
record back under the same id so that a subsequent lookup observes it, and
returns it with status 200. At play_count = 2 ^ 32 - 1 the u32 addition
wraps to 0 instead (see the counterexample). -/
theorem play_song_increments (st : AppState) (s : String) (id : Nat) (song : Song)
    (hp : parseUsize s = some id)
    (hr : st.readFails.contains id = false)
    (hg : lookupEntry st.entries id = some song)
    (hw : st.writeFails.contains id = false)
    (hc : song.play_count + 1 < 4294967296) :
    ∃ st2, play_song st (some s) =
        some (PlayResp.okResp 200 { song with play_count := song.play_count + 1 }, st2) ∧
      st2.readFails = st.readFails ∧
      dbGet st2 id = Except.ok (some { song with play_count := song.play_count + 1 }) := by
  have hr2 : ¬ id ∈ st.readFails := by simpa using hr
  have hw2 : ¬ id ∈ st.writeFails := by simpa using hw
  refine ⟨{ entries := setEntry st.entries id { song with play_count := song.play_count + 1 },
            readFails := st.readFails, writeFails := st.writeFails, dirty := true },
          ?_, rfl, ?_⟩
  · simp [play_song, hp, dbGet, hr2, hg, dbSet, hw2, Nat.mod_eq_of_lt hc]
  · simp [dbGet, hr2, lookup_set_self]

/-- Witness for the amended C5: playing id 1 with stored play_count 0
yields play_count 1, observed by the subsequent lookup. -/
theorem play_song_increments_witness :
    ∃ st2,
      play_song
          { entries := [(1, { id := 1, title := "t", artist := "a", genre := "g",
                              play_count := 0 })],
            readFails := [], writeFails := [], dirty := false }
          (some "1") =
        some (PlayResp.okResp 200
                { id := 1, title := "t", artist := "a", genre := "g", play_count := 1 }, st2) ∧
      st2.readFails = [] ∧
      dbGet st2 1 =
        Except.ok (some { id := 1, title := "t", artist := "a", genre := "g",
                          play_count := 1 }) :=
  play_song_increments
    { entries := [(1, { id := 1, title := "t", artist := "a", genre := "g",
                        play_count := 0 })],
      readFails := [], writeFails := [], dirty := false }
    "1" 1 { id := 1, title := "t", artist := "a", genre := "g", play_count := 0 }
    (by decide) (by decide) (by decide) (by decide) (by decide)

/-- C5 counterexample: at the u32 maximum 4294967295 the increment wraps to
0, so play_count is not increased by exactly 1 and the claim as stated is
false. (Such a record is reachable: create accepts a client-supplied
play_count, see the C4 counterexample.) -/
theorem play_song_increment_wraps :
    play_song
        { entries := [(1, { id := 1, title := "t", artist := "a", genre := "g",
                            play_count := 4294967295 })],
          readFails := [], writeFails := [], dirty := false }
        (some "1") =
      some (PlayResp.okResp 200
              { id := 1, title := "t", artist := "a", genre := "g", play_count := 0 },
            { entries := [(1, { id := 1, title := "t", artist := "a", genre := "g",
                                play_count := 0 })],
              readFails := [], writeFails := [], dirty := true }) ∧
    (0 : Nat) ≠ 4294967295 + 1 := by
  decide

/-- C7: for a well-formed integer id that is absent from the store (the
read succeeds and finds nothing), play_song returns the 404 response whose
body carries the error message Song not found, it does not panic (the
result is some), and the state, store contents included, is unchanged. -/
theorem play_song_absent_id_404 (st : AppState) (s : String) (id : Nat)
    (hp : parseUsize s = some id)
    (hr : st.readFails.contains id = false)
    (hg : lookupEntry st.entries id = none) :
    play_song st (some s) = some (PlayResp.errResp 404 "Song not found", st) := by
  have hr2 : ¬ id ∈ st.readFails := by simpa using hr
  simp [play_song, hp, dbGet, hr2, hg]

/-- Witness for C7: playing id 999 against a store holding only id 1. -/
theorem play_song_absent_id_404_witness :
    play_song
        { entries := [(1, { id := 1, title := "t", artist := "a", genre := "g",
                            play_count := 0 })],
          readFails := [], writeFails := [], dirty := false }
        (some "999") =
      some (PlayResp.errResp 404 "Song not found",
            { entries := [(1, { id := 1, title := "t", artist := "a", genre := "g",
                                play_count := 0 })],
              readFails := [], writeFails := [], dirty := false }) :=
  play_song_absent_id_404
    { entries := [(1, { id := 1, title := "t", artist := "a", genre := "g",
                        play_count := 0 })],
      readFails := [], writeFails := [], dirty := false }
    "999" 999 (by decide) (by decide) (by decide)

/-- C10: when the storage read itself fails on the play path (db.get
returns Err), the handler answers exactly as for a missing id: the 404
response with the body message Song not found, and the state, store
contents included, is unchanged. -/
theorem play_song_read_error_404 (st : AppState) (s : String) (id : Nat)
    (hp : parseUsize s = some id)
    (hf : st.readFails.contains id = true) :
    play_song st (some s) = some (PlayResp.errResp 404 "Song not found", st) := by
  have hf2 : id ∈ st.readFails := by simpa using hf
  simp [play_song, hp, dbGet, hf2]

/-- Witness for C10: a read fault injected on id 3. -/
theorem play_song_read_error_404_witness :
    play_song
        { entries := [(3, { id := 3, title := "t", artist := "a", genre := "g",
                            play_count := 0 })],
          readFails := [3], writeFails := [], dirty := false }
        (some "3") =
      some (PlayResp.errResp 404 "Song not found",
            { entries := [(3, { id := 3, title := "t", artist := "a", genre := "g",
                                play_count := 0 })],
              readFails := [3], writeFails := [], dirty := false }) :=
  play_song_read_error_404
    { entries := [(3, { id := 3, title := "t", artist := "a", genre := "g",
                        play_count := 0 })],
      readFails := [3], writeFails := [], dirty := false }
    "3" 3 (by decide) (by decide)
